import Mathlib

/-!
Verification of the micro:bit serial echo / LED animation firmware
(`src/microbit/src/07-uart/src/main.rs`) and the LED roulette perimeter
walker (`src/microbit/src/05-led-roulette/src/main.rs`).

Bytes are modelled as natural numbers (the firmware works on `u8`; every
value that appears stays far below 256, and the one subtraction that
could wrap is shown never to underflow).  The serial transport, the RTT
debug log and the display surface are modelled as explicit outputs.
-/

namespace Uart

/-- Byte value of the carriage-return character the firmware calls ENTER. -/
def ENTER : Nat := 13

/-- Byte value of the BACKSPACE character. -/
def BACKSPACE : Nat := 8

/-- Byte value of the SPACE character. -/
def SPACE : Nat := 32

/-- Capacity of the heapless line buffer (`Vec<u8, 32>`). -/
def CAPACITY : Nat := 32

/-- One iteration of the mainline serial loop body acting on the line
buffer (`main`, lines 123-153 of 07-uart).  Returns the new buffer, the
bytes written to the serial transport, and the diagnostic records
(current length, capacity, rejected byte) printed to the RTT log by the
`Err` branch of `buffer.push`.  The buffer is a list whose right end is
the most recently pushed byte, matching `heapless::Vec` push/pop.
On ENTER the firmware first writes the string CR LF, then iterates the
buffer in reverse (`buffer.iter().rev()`) chained with LF CR, then
clears the buffer.  On BACKSPACE a successful `pop` echoes backspace,
space, backspace; a pop from an empty buffer echoes nothing.  Otherwise
`push` either stores and echoes the byte or, at capacity, stores
nothing, echoes nothing and logs a diagnostic. -/
def handle_byte (buffer : List Nat) (byte : Nat) :
    List Nat × List Nat × List (Nat × Nat × Nat) :=
  if byte = ENTER then
    ([], [13, 10] ++ buffer.reverse ++ [10, 13], [])
  else if byte = BACKSPACE then
    if buffer = [] then
      (buffer, [], [])
    else
      (buffer.dropLast, [byte, SPACE, byte], [])
  else
    if buffer.length < CAPACITY then
      (buffer ++ [byte], [byte], [])
    else
      (buffer, [], [(buffer.length, CAPACITY, byte)])

/-- Run the mainline loop body over a sequence of received bytes,
concatenating the serial echo and the diagnostic log in order. -/
def processBytes (buffer : List Nat) :
    List Nat → List Nat × List Nat × List (Nat × Nat × Nat)
  | [] => (buffer, [], [])
  | b :: bs =>
    let r := handle_byte buffer b
    let rest := processBytes r.1 bs
    (rest.1, r.2.1 ++ rest.2.1, r.2.2 ++ rest.2.2)

/-- A byte the push branch handles: neither ENTER nor BACKSPACE. -/
def printable (b : Nat) : Prop := b ≠ ENTER ∧ b ≠ BACKSPACE

instance (b : Nat) : Decidable (printable b) := by
  unfold printable; infer_instance

/-- A 5 by 5 brightness frame, the shallow embedding of `GreyscaleImage`
(row major, row 0 on top). -/
abbrev Image := List (List Nat)

/-- The all-zero frame `BLANK_MATRIX` (07-uart, lines 172-178). -/
def BLANK_MATRIX : Image :=
  [ [0, 0, 0, 0, 0],
    [0, 0, 0, 0, 0],
    [0, 0, 0, 0, 0],
    [0, 0, 0, 0, 0],
    [0, 0, 0, 0, 0] ]

/-- Cell `(i, j)` of a frame (row `i`, column `j`), defaulting to 0 out
of range. -/
def cell (m : Image) (i j : Nat) : Nat := ((m[i]?).getD [])[j]?.getD 0

/-- The glyph table `ch_to_matrix` (07-uart, lines 233-707), a pure
function from an optional byte and a brightness scalar to a 5 by 5
frame.  Byte values are the ASCII codes of the Rust `char` patterns;
`13` is ENTER, `8` is BACKSPACE, `32` is space, `27` is escape.  The
source defines the space arm twice; under Rust first-match dispatch
only the first (`BLANK_MATRIX`) applies, so only it is modelled.
Bytes matching no arm fall through to the all-`b` frame. -/
def ch_to_matrix (ch : Option Nat) (brightness : Nat) : Image :=
  match ch with
  | none => BLANK_MATRIX
  | some c =>
    let b := brightness
    match c with
      | 65 =>
        [ [0, b, b, b, 0],
          [b, 0, 0, 0, b],
          [b, b, b, b, b],
          [b, 0, 0, 0, b],
          [b, 0, 0, 0, b] ]
      | 97 =>
        [ [b, b, b, b, 0],
          [0, 0, 0, 0, b],
          [0, b, b, b, b],
          [b, 0, 0, 0, b],
          [0, b, b, b, b] ]
      | 66 =>
        [ [b, b, b, b, 0],
          [b, 0, 0, 0, b],
          [b, b, b, b, 0],
          [b, 0, 0, 0, b],
          [b, b, b, b, 0] ]
      | 98 =>
        [ [b, 0, 0, 0, 0],
          [b, b, b, b, 0],
          [b, 0, 0, 0, b],
          [b, 0, 0, 0, b],
          [b, b, b, b, 0] ]
      | 67 =>
        [ [0, b, b, b, b],
          [b, 0, 0, 0, 0],
          [b, 0, 0, 0, 0],
          [b, 0, 0, 0, 0],
          [0, b, b, b, b] ]
      | 99 =>
        [ [0, b, b, b, 0],
          [b, 0, 0, 0, b],
          [b, 0, 0, 0, 0],
          [b, 0, 0, 0, b],
          [0, b, b, b, 0] ]
      | 68 =>
        [ [b, b, b, b, 0],
          [b, 0, 0, 0, b],
          [b, 0, 0, 0, b],
          [b, 0, 0, 0, b],
          [b, b, b, b, 0] ]
      | 100 =>
        [ [0, 0, 0, 0, b],
          [0, b, b, b, b],
          [b, 0, 0, 0, b],
          [b, 0, 0, 0, b],
          [0, b, b, b, b] ]
      | 69 =>
        [ [b, b, b, b, b],
          [b, 0, 0, 0, 0],
          [b, b, b, b, b],
          [b, 0, 0, 0, 0],
          [b, b, b, b, b] ]
      | 101 =>
        [ [0, b, b, b, 0],
          [b, 0, 0, 0, b],
          [b, b, b, b, b],
          [b, 0, 0, 0, 0],
          [0, b, b, b, b] ]
      | 70 =>
        [ [b, b, b, b, b],
          [b, 0, 0, 0, 0],
          [b, b, b, 0, 0],
          [b, 0, 0, 0, 0],
          [b, 0, 0, 0, 0] ]
      | 102 =>
        [ [0, b, b, b, b],
          [b, 0, 0, 0, 0],
          [b, b, b, 0, 0],
          [b, 0, 0, 0, 0],
          [b, 0, 0, 0, 0] ]
      | 71 =>
        [ [0, b, b, b, b],
          [b, 0, 0, 0, 0],
          [b, 0, b, b, b],
          [b, 0, 0, 0, b],
          [0, b, b, b, b] ]
      | 103 =>
        [ [0, b, b, b, 0],
          [b, 0, 0, 0, b],
          [0, b, b, b, b],
          [0, 0, 0, 0, b],
          [b, b, b, b, 0] ]
      | 72 =>
        [ [b, 0, 0, 0, b],
          [b, 0, 0, 0, b],
          [b, b, b, b, b],
          [b, 0, 0, 0, b],
          [b, 0, 0, 0, b] ]
      | 104 =>
        [ [b, 0, 0, 0, 0],
          [b, b, b, b, 0],
          [b, 0, 0, 0, b],
          [b, 0, 0, 0, b],
          [b, 0, 0, 0, b] ]
      | 73 =>
        [ [0, b, b, b, 0],
          [0, 0, b, 0, 0],
          [0, 0, b, 0, 0],
          [0, 0, b, 0, 0],
          [0, b, b, b, 0] ]
      | 105 =>
        [ [0, 0, b, 0, 0],
          [0, 0, 0, 0, 0],
          [0, 0, b, 0, 0],
          [0, 0, b, 0, 0],
          [0, 0, b, 0, 0] ]
      | 74 =>
        [ [0, 0, b, b, b],
          [0, 0, 0, 0, b],
          [0, 0, 0, 0, b],
          [b, 0, 0, 0, b],
          [0, b, b, b, 0] ]
      | 106 =>
        [ [0, 0, 0, 0, b],
          [0, 0, 0, 0, b],
          [0, 0, 0, 0, b],
          [0, 0, 0, 0, b],
          [b, b, b, b, 0] ]
      | 75 =>
        [ [b, 0, 0, b, 0],
          [b, 0, b, 0, 0],
          [b, b, b, b, 0],
          [b, 0, 0, 0, b],
          [b, 0, 0, 0, b] ]
      | 107 =>
        [ [b, 0, 0, 0, b],
          [b, 0, 0, b, 0],
          [b, b, b, 0, 0],
          [b, 0, 0, b, 0],
          [b, 0, 0, 0, b] ]
      | 76 =>
        [ [b, 0, 0, 0, 0],
          [b, 0, 0, 0, 0],
          [b, 0, 0, 0, 0],
          [b, 0, 0, 0, 0],
          [b, b, b, b, b] ]
      | 108 =>
        [ [b, 0, 0, 0, 0],
          [b, 0, 0, 0, 0],
          [b, 0, 0, 0, 0],
          [b, 0, 0, 0, 0],
          [0, b, b, b, b] ]
      | 77 =>
        [ [b, 0, 0, 0, b],
          [b, b, 0, b, b],
          [b, 0, b, 0, b],
          [b, 0, 0, 0, b],
          [b, 0, 0, 0, b] ]
      | 109 =>
        [ [0, b, 0, b, 0],
          [b, 0, b, 0, b],
          [b, 0, b, 0, b],
          [b, 0, b, 0, b],
          [b, 0, b, 0, b] ]
      | 78 =>
        [ [b, b, 0, 0, b],
          [b, 0, b, 0, b],
          [b, 0, b, 0, b],
          [b, 0, b, 0, b],
          [b, 0, 0, b, b] ]
      | 110 =>
        [ [b, b, b, b, 0],
          [b, 0, 0, 0, b],
          [b, 0, 0, 0, b],
          [b, 0, 0, 0, b],
          [b, 0, 0, 0, b] ]
      | 79 =>
        [ [0, b, b, b, 0],
          [b, 0, 0, 0, b],
          [b, 0, 0, 0, b],
          [b, 0, 0, 0, b],
          [0, b, b, b, 0] ]
      | 111 =>
        [ [0, 0, 0, 0, 0],
          [0, b, b, 0, 0],
          [b, 0, 0, b, 0],
          [b, 0, 0, b, 0],
          [0, b, b, 0, 0] ]
      | 80 =>
        [ [b, b, b, b, 0],
          [b, 0, 0, 0, b],
          [b, b, b, b, 0],
          [b, 0, 0, 0, 0],
          [b, 0, 0, 0, 0] ]
      | 112 =>
        [ [b, b, b, b, 0],
          [b, 0, 0, 0, b],
          [b, 0, 0, 0, b],
          [b, b, b, b, 0],
          [b, 0, 0, 0, 0] ]
      | 81 =>
        [ [0, b, b, 0, 0],
          [b, 0, 0, b, 0],
          [b, 0, 0, b, 0],
          [b, 0, 0, b, 0],
          [0, b, b, b, b] ]
      | 113 =>
        [ [0, b, b, b, b],
          [b, 0, 0, 0, b],
          [b, 0, 0, 0, b],
          [0, b, b, b, b],
          [0, 0, 0, 0, b] ]
      | 82 =>
        [ [b, b, b, b, 0],
          [b, 0, 0, 0, b],
          [b, b, b, b, 0],
          [b, 0, 0, b, 0],
          [b, 0, 0, 0, b] ]
      | 114 =>
        [ [b, 0, b, b, 0],
          [b, b, 0, 0, b],
          [b, 0, 0, 0, 0],
          [b, 0, 0, 0, 0],
          [b, 0, 0, 0, 0] ]
      | 83 =>
        [ [0, b, b, b, b],
          [b, 0, 0, 0, 0],
          [0, b, b, b, 0],
          [0, 0, 0, 0, b],
          [b, b, b, b, 0] ]
      | 115 =>
        [ [0, 0, b, b, 0],
          [0, b, 0, 0, 0],
          [0, 0, b, 0, 0],
          [0, 0, 0, b, 0],
          [0, b, b, 0, 0] ]
      | 84 =>
        [ [b, b, b, b, b],
          [0, 0, b, 0, 0],
          [0, 0, b, 0, 0],
          [0, 0, b, 0, 0],
          [0, 0, b, 0, 0] ]
      | 116 =>
        [ [b, 0, 0, 0, 0],
          [b, b, b, 0, 0],
          [b, 0, 0, 0, 0],
          [b, 0, 0, 0, b],
          [0, b, b, b, 0] ]
      | 85 =>
        [ [b, 0, 0, 0, b],
          [b, 0, 0, 0, b],
          [b, 0, 0, 0, b],
          [b, 0, 0, 0, b],
          [0, b, b, b, 0] ]
      | 117 =>
        [ [b, 0, 0, 0, b],
          [b, 0, 0, 0, b],
          [b, 0, 0, 0, b],
          [b, 0, 0, b, b],
          [0, b, b, 0, b] ]
      | 86 =>
        [ [b, 0, 0, 0, b],
          [b, 0, 0, 0, b],
          [0, b, 0, b, 0],
          [0, b, 0, b, 0],
          [0, 0, b, 0, 0] ]
      | 118 =>
        [ [0, 0, 0, 0, 0],
          [b, 0, 0, 0, b],
          [0, b, 0, b, 0],
          [0, 0, b, 0, 0],
          [0, 0, 0, 0, 0] ]
      | 87 =>
        [ [b, 0, 0, 0, b],
          [b, 0, 0, 0, b],
          [b, 0, b, 0, b],
          [b, b, 0, b, b],
          [b, 0, 0, 0, b] ]
      | 119 =>
        [ [b, 0, 0, 0, b],
          [b, 0, b, 0, b],
          [b, 0, b, 0, b],
          [b, 0, b, 0, b],
          [0, b, 0, b, 0] ]
      | 88 =>
        [ [b, 0, 0, 0, b],
          [0, b, 0, b, 0],
          [0, 0, b, 0, 0],
          [0, b, 0, b, 0],
          [b, 0, 0, 0, b] ]
      | 120 =>
        [ [b, 0, 0, 0, b],
          [b, 0, 0, 0, b],
          [0, b, b, b, 0],
          [b, 0, 0, 0, b],
          [b, 0, 0, 0, b] ]
      | 89 =>
        [ [b, 0, 0, 0, b],
          [b, 0, 0, 0, b],
          [0, b, b, b, 0],
          [0, 0, b, 0, 0],
          [0, 0, b, 0, 0] ]
      | 121 =>
        [ [b, 0, 0, 0, b],
          [b, 0, 0, 0, b],
          [0, b, b, b, b],
          [0, 0, 0, 0, b],
          [b, b, b, b, 0] ]
      | 90 =>
        [ [b, b, b, b, b],
          [0, 0, 0, 0, b],
          [0, b, b, b, 0],
          [b, 0, 0, 0, 0],
          [b, b, b, b, b] ]
      | 122 =>
        [ [b, b, b, b, b],
          [0, 0, 0, b, 0],
          [0, 0, b, 0, 0],
          [0, b, 0, 0, 0],
          [b, b, b, b, b] ]
      | 48 =>
        [ [0, b, b, b, 0],
          [b, 0, 0, b, b],
          [b, 0, b, 0, b],
          [b, b, 0, 0, b],
          [0, b, b, b, 0] ]
      | 49 =>
        [ [0, 0, b, 0, 0],
          [0, b, b, 0, 0],
          [0, 0, b, 0, 0],
          [0, 0, b, 0, 0],
          [0, b, b, b, 0] ]
      | 50 =>
        [ [b, b, b, b, 0],
          [0, 0, 0, 0, b],
          [0, b, b, b, 0],
          [b, 0, 0, 0, 0],
          [b, b, b, b, b] ]
      | 51 =>
        [ [b, b, b, b, 0],
          [0, 0, 0, 0, b],
          [0, 0, b, b, 0],
          [0, 0, 0, 0, b],
          [b, b, b, b, b] ]
      | 52 =>
        [ [b, 0, 0, 0, b],
          [b, 0, 0, 0, b],
          [0, b, b, b, b],
          [0, 0, 0, 0, b],
          [0, 0, 0, 0, b] ]
      | 53 =>
        [ [b, b, b, b, b],
          [b, 0, 0, 0, 0],
          [b, b, b, b, 0],
          [0, 0, 0, 0, b],
          [b, b, b, b, 0] ]
      | 54 =>
        [ [0, b, b, b, b],
          [b, 0, 0, 0, 0],
          [b, b, b, b, 0],
          [b, 0, 0, 0, b],
          [0, b, b, b, 0] ]
      | 55 =>
        [ [b, b, b, b, b],
          [0, 0, 0, 0, b],
          [0, 0, 0, b, 0],
          [0, 0, 0, b, 0],
          [0, 0, 0, b, 0] ]
      | 56 =>
        [ [0, b, b, b, 0],
          [b, 0, 0, 0, b],
          [0, b, b, b, 0],
          [b, 0, 0, 0, b],
          [0, b, b, b, 0] ]
      | 57 =>
        [ [0, b, b, b, 0],
          [b, 0, 0, 0, b],
          [0, b, b, b, b],
          [0, 0, 0, 0, b],
          [0, 0, b, b, 0] ]
      | 13 =>
        [ [0, 0, 0, 0, b],
          [0, 0, 0, 0, b],
          [0, b, 0, 0, b],
          [b, b, b, b, b],
          [0, b, 0, 0, 0] ]
      | 8 =>
        [ [0, 0, 0, 0, 0],
          [0, b, 0, 0, 0],
          [b, b, b, b, b],
          [0, b, 0, 0, 0],
          [0, 0, 0, 0, 0] ]
      | 32 => BLANK_MATRIX
      | 27 => BLANK_MATRIX
      | _ =>
        [ [b, b, b, b, b],
          [b, b, b, b, b],
          [b, b, b, b, b],
          [b, b, b, b, b],
          [b, b, b, b, b] ]

/-- Rescales a frame: zero cells stay zero, nonzero cells become `b`.
Every glyph of the table is its brightness-1 shape rescaled this way. -/
def scaleShape (b : Nat) (m : Image) : Image :=
  m.map (fun row => row.map (fun x => if x = 0 then 0 else b))

/-- The characters the glyph table has an explicit arm for. -/
def supportedChar (c : Nat) : Prop :=
  (65 ≤ c ∧ c ≤ 90) ∨ (97 ≤ c ∧ c ≤ 122) ∨ (48 ≤ c ∧ c ≤ 57) ∨
    c = ENTER ∨ c = BACKSPACE ∨ c = SPACE ∨ c = 27

instance (c : Nat) : Decidable (supportedChar c) := by
  unfold supportedChar; infer_instance

/-- Publish into the single-slot mailbox `DISPLAY_CH` (07-uart, line
119): the mainline unconditionally stores the received byte, silently
overwriting any unconsumed value. -/
def publish (_slot : Option Nat) (byte : Nat) : Option Nat := some byte

/-- Take from the mailbox (07-uart, lines 192-199): returns the pending
byte, if any, and the slot afterwards; a present byte is cleared. -/
def take (slot : Option Nat) : Option Nat × Option Nat :=
  match slot with
  | some b => (some b, none)
  | none => (none, none)

/-- Number of fade steps a fresh character starts with (`MAX_STEP`). -/
def MAX_STEP : Nat := 24

/-- Step threshold at which the fade resets (`MIN_STEP`). -/
def MIN_STEP : Nat := 3

/-- State of the RTC0 animation interrupt: the shared mailbox slot
`DISPLAY_CH` plus the ISR-local statics `STEP` and `CH`. -/
structure AnimState where
  mailbox : Option Nat
  step : Nat
  ch : Option Nat
deriving DecidableEq, Repr

/-- Mailbox drain at the top of the RTC0 handler (lines 190-199): if a
byte is pending, record it as `input_ch`, force `STEP` back to
`MAX_STEP` and clear the slot. -/
def drain (s : AnimState) : Option Nat × AnimState :=
  match s.mailbox with
  | some b => (some b, { s with mailbox := none, step := MAX_STEP })
  | none => (none, s)

/-- Fade reset (lines 201-204): once `STEP` has decayed to `MIN_STEP`
or below, force it back to `MAX_STEP` and forget the character. -/
def resetPhase (s : AnimState) : AnimState :=
  if s.step ≤ MIN_STEP then { s with step := MAX_STEP, ch := none } else s

/-- Brightness computation (lines 206-210): `9 - (9 - STEP)` for steps
0 to 8, the full brightness 9 for steps 9 to `MAX_STEP`, and `none` for
the `unreachable!()` arm. -/
def brightness (step : Nat) : Option Nat :=
  if step ≤ 8 then some (9 - (9 - step))
  else if step ≤ MAX_STEP then some 9
  else none

/-- Glyph selection (lines 212-222): a repeated character blanks the
frame for one tick and leaves `CH` alone; otherwise a newly taken byte
is adopted into `CH` and the (possibly updated) `CH` is rendered.
Returns the frame together with the new `CH`; `STEP` is not touched. -/
def glyphSelect (input_ch ch : Option Nat) (b : Nat) : Image × Option Nat :=
  if input_ch = ch then
    (BLANK_MATRIX, ch)
  else
    let ch2 := if input_ch.isSome then input_ch else ch
    (ch_to_matrix ch2 b, ch2)

/-- One full RTC0 animation tick (lines 179-231): drain the mailbox,
apply the fade reset, compute the brightness, select the frame, and
decrement `STEP`.  Returns the new state and the frame handed to
`display.show`; the frame is `none` exactly when the `unreachable!()`
brightness arm would panic. -/
def tick (s : AnimState) : AnimState × Option Image :=
  let p := drain s
  let s1 := resetPhase p.2
  match brightness s1.step with
  | none => (s1, none)
  | some b =>
    let g := glyphSelect p.1 s1.ch b
    ({ s1 with ch := g.2, step := s1.step - 1 }, some g.1)

/-- Initial animation state: `STEP` starts at `MAX_STEP`, `CH` and the
mailbox start empty (lines 52, 181-182). -/
def animInit : AnimState := { mailbox := none, step := MAX_STEP, ch := none }

/-- The step invariant: at the start of every tick `STEP` lies between
`MIN_STEP` and `MAX_STEP`. -/
def AnimInv (s : AnimState) : Prop := MIN_STEP ≤ s.step ∧ s.step ≤ MAX_STEP

instance (s : AnimState) : Decidable (AnimInv s) := by
  unfold AnimInv; infer_instance

/-- The step value a tick feeds into the brightness match and then
decrements: the stored step after the drain and the fade reset. -/
def usedStep (s : AnimState) : Nat := (resetPhase (drain s).2).step

/-- The brightness a tick renders with. -/
def usedBrightness (s : AnimState) : Option Nat := brightness (usedStep s)

end Uart

namespace Roulette

/-- The perimeter walker `next_xy` of 05-led-roulette (lines 43-79):
one clockwise move along the border of the 5 by 5 matrix (row 0 walks
right, column 4 walks down, row 4 walks left, column 0 walks up). -/
def next_xy (x y : Nat) : Nat × Nat :=
  if y = 0 then
    if x < 4 then (x + 1, y) else (x, y + 1)
  else if x = 4 then
    if y < 4 then (x, y + 1) else (x - 1, y)
  else if y = 4 then
    if x > 0 then (x - 1, y) else (x, y - 1)
  else if x = 0 then
    if y > 0 then (x, y - 1) else (x + 1, y)
  else (0, 0)

/-- The roulette loop's position after `n` iterations starting from
`(0, 0)` (lines 29-41). -/
def orbit : Nat → Nat × Nat
  | 0 => (0, 0)
  | n + 1 => next_xy (orbit n).1 (orbit n).2

/-- Membership in the border of the 5 by 5 grid, with both components
in bounds. -/
def perimeter (x y : Nat) : Prop :=
  x ≤ 4 ∧ y ≤ 4 ∧ (x = 0 ∨ x = 4 ∨ y = 0 ∨ y = 4)

instance (x y : Nat) : Decidable (perimeter x y) := by
  unfold perimeter; infer_instance

end Roulette

namespace Uart

theorem handle_byte_printable (buffer : List Nat) (b : Nat)
    (hp : printable b) (hlt : buffer.length < CAPACITY) :
    handle_byte buffer b = (buffer ++ [b], [b], []) := by
  obtain ⟨h1, h2⟩ := hp
  simp [handle_byte, h1, h2, hlt]

theorem handle_byte_full (buffer : List Nat) (b : Nat)
    (hp : printable b) (hlen : buffer.length = CAPACITY) :
    handle_byte buffer b = (buffer, [], [(buffer.length, CAPACITY, b)]) := by
  obtain ⟨h1, h2⟩ := hp
  simp [handle_byte, h1, h2, hlen]

theorem processBytes_printable_run (bs : List Nat) :
    ∀ buffer : List Nat, (∀ b ∈ bs, printable b) →
    buffer.length + bs.length ≤ CAPACITY →
    processBytes buffer bs = (buffer ++ bs, bs, []) := by
  induction bs with
  | nil => intro buffer _ _; simp [processBytes]
  | cons b bs ih =>
    intro buffer hp hlen
    have hb : printable b := hp b (List.mem_cons_self b bs)
    have hlt : buffer.length < CAPACITY := by
      simp [List.length_cons] at hlen; omega
    have hrest := ih (buffer ++ [b])
      (fun x hx => hp x (List.mem_cons_of_mem b hx))
      (by simp [List.length_cons] at hlen ⊢; omega)
    simp [processBytes, handle_byte_printable buffer b hb hlt, hrest]

theorem processBytes_append (xs ys : List Nat) :
    ∀ buffer : List Nat,
    processBytes buffer (xs ++ ys) =
      ((processBytes (processBytes buffer xs).1 ys).1,
       (processBytes buffer xs).2.1 ++ (processBytes (processBytes buffer xs).1 ys).2.1,
       (processBytes buffer xs).2.2 ++ (processBytes (processBytes buffer xs).1 ys).2.2) := by
  induction xs with
  | nil => intro buffer; simp [processBytes]
  | cons x xs ih =>
    intro buffer
    simp [processBytes, ih]

end Uart

/-- Claim C1 (as stated, refuted): in the 'A', 'B', Backspace, Enter
scenario the echo does NOT continue with the buffer's contents right
after the erase sequence — the firmware first writes a CR-LF pair, so
no choice of trailing newline sequence makes byte 5 of the echo equal
the buffered byte 65. -/
theorem c1_counterexample :
    ¬ ∃ nl : List Nat,
      (Uart.processBytes [] [65, 66, 8, 13]).2.1 = [65, 66, 8, 32, 8, 65] ++ nl := by
  rintro ⟨nl, h⟩
  have htr : (Uart.processBytes [] [65, 66, 8, 13]).2.1 =
      [65, 66, 8, 32, 8, 13, 10, 65, 10, 13] := by decide
  rw [htr] at h
  simp at h

/-- Claim C1 (amended): for the input 'A', 'B', Backspace, Enter from an
empty buffer, the echoed bytes are 'A', 'B', the erase sequence
backspace-space-backspace, then CR LF, then the buffer's contents in
reverse insertion order (here the single byte 'A'), then LF CR; the
buffer afterwards is empty (length 0), and no diagnostic is logged. -/
theorem c1_scenario :
    Uart.processBytes [] [65, 66, 8, 13] =
      ([], [65, 66, 8, 32, 8, 13, 10, 65, 10, 13], []) := by
  decide

/-- Claim C4: a Backspace on an empty line buffer writes nothing to the
serial transport and leaves the buffer empty; a Backspace on a
non-empty buffer removes exactly the most recently appended byte and
writes exactly backspace, space, backspace. -/
theorem c4_backspace (l : List Nat) (b : Nat) :
    Uart.handle_byte [] Uart.BACKSPACE = ([], [], []) ∧
    Uart.handle_byte (l ++ [b]) Uart.BACKSPACE =
      (l, [Uart.BACKSPACE, Uart.SPACE, Uart.BACKSPACE], []) := by
  constructor
  · rfl
  · simp [Uart.handle_byte, Uart.ENTER, Uart.BACKSPACE, Uart.SPACE]

/-- Claim C6: a take returns the pending byte (if any) and clears the
slot, so a second take with no intervening publish returns none; a
publish always succeeds and overwrites any unconsumed value.  The slot
holds at most one byte by construction (`Option Nat`). -/
theorem c6_mailbox (slot : Option Nat) (b : Nat) :
    (Uart.take slot).1 = slot ∧
    (Uart.take slot).2 = none ∧
    (Uart.take (Uart.take slot).2).1 = none ∧
    Uart.publish slot b = some b := by
  cases slot <;> simp [Uart.take, Uart.publish]

/-- Claim C10: from any perimeter cell of the 5 by 5 grid, `next_xy`
returns a perimeter cell with both components at most 4 (so the
roulette loop's `display_matrix[y][x]` indexing stays in bounds), and
starting from `(0, 0)` the orbit walks the 16 perimeter cells clockwise
without repetition, returning to `(0, 0)` after 16 moves. -/
theorem c10_perimeter_cycle :
    (∀ x y, Roulette.perimeter x y →
      Roulette.perimeter (Roulette.next_xy x y).1 (Roulette.next_xy x y).2) ∧
    (List.range 16).map Roulette.orbit =
      [(0, 0), (1, 0), (2, 0), (3, 0), (4, 0),
       (4, 1), (4, 2), (4, 3), (4, 4), (3, 4),
       (2, 4), (1, 4), (0, 4), (0, 3), (0, 2), (0, 1)] ∧
    Roulette.orbit 16 = (0, 0) ∧
    ((List.range 16).map Roulette.orbit).Nodup := by
  refine ⟨?_, by decide, by decide, by decide⟩
  intro x y h
  obtain ⟨hx, hy, hp⟩ := h
  interval_cases x <;> interval_cases y <;> revert hp <;> decide

/-- Concrete instance of the C10 perimeter preservation: `(0, 0)` is on
the perimeter and so is its successor. -/
theorem c10_witness :
    Roulette.perimeter 0 0 ∧
    Roulette.perimeter (Roulette.next_xy 0 0).1 (Roulette.next_xy 0 0).2 :=
  ⟨by decide, c10_perimeter_cycle.1 0 0 (by decide)⟩

/-- Feeding a full buffer (32 printable bytes) and one more printable
byte: the extra byte is dropped, not echoed, and logged. -/
theorem c3_key (xs : List Nat) (x : Nat) (hlen : xs.length = 32)
    (hpt : ∀ b ∈ xs, Uart.printable b) (hpx : Uart.printable x) :
    Uart.processBytes [] (xs ++ [x]) = (xs, xs, [(32, 32, x)]) := by
  have hrun := Uart.processBytes_printable_run xs [] hpt
    (by simp [hlen, Uart.CAPACITY])
  have hfull := Uart.handle_byte_full xs x hpx (by simp [hlen, Uart.CAPACITY])
  rw [Uart.processBytes_append]
  simp [hrun, Uart.processBytes, hfull, hlen, Uart.CAPACITY]

/-- Claim C3: any 33 printable (neither Enter nor Backspace) bytes fed
to the line editor from an empty buffer leave the buffer holding
exactly the first 32 bytes (length 32 = capacity); the 33rd byte is
neither stored nor echoed, and a single diagnostic record holding the
current length 32, the capacity 32 and the rejected byte is emitted on
the out-of-band log channel. -/
theorem c3_overflow (bs : List Nat) (h33 : bs.length = 33)
    (hp : ∀ b ∈ bs, Uart.printable b) :
    (Uart.processBytes [] bs).1 = bs.take 32 ∧
    (Uart.processBytes [] bs).1.length = 32 ∧
    (Uart.processBytes [] bs).2.1 = bs.take 32 ∧
    (Uart.processBytes [] bs).2.2 = [(32, 32, bs.getD 32 0)] := by
  have hsplit : bs = bs.take 32 ++ bs.drop 32 := (List.take_append_drop 32 bs).symm
  have hlen_take : (bs.take 32).length = 32 := by rw [List.length_take]; omega
  have hlen_drop : (bs.drop 32).length = 1 := by rw [List.length_drop]; omega
  obtain ⟨x, hx⟩ := List.length_eq_one.mp hlen_drop
  have hpt : ∀ b ∈ bs.take 32, Uart.printable b :=
    fun b hb => hp b (List.take_subset 32 bs hb)
  have hpx : Uart.printable x := hp x (by
    have hmem : x ∈ bs.drop 32 := by rw [hx]; exact List.mem_singleton_self x
    exact List.drop_subset 32 bs hmem)
  have h1 : Uart.processBytes [] bs = (bs.take 32, bs.take 32, [(32, 32, x)]) := by
    conv_lhs => rw [hsplit, hx]
    exact c3_key (bs.take 32) x hlen_take hpt hpx
  have hgetD : bs.getD 32 0 = x := by
    rw [List.getD_eq_getElem?_getD]
    conv_lhs => rw [hsplit, hx]
    rw [List.getElem?_append_right (by omega)]
    simp [hlen_take]
  rw [h1, hgetD]
  simp [hlen_take]

/-- Concrete instance of C3: 33 copies of 'A' leave 32 stored and one
logged rejection. -/
theorem c3_witness :
    (List.replicate 33 65).length = 33 ∧
    (∀ b ∈ List.replicate 33 65, Uart.printable b) ∧
    ((Uart.processBytes [] (List.replicate 33 65)).1 =
        (List.replicate 33 65).take 32 ∧
      (Uart.processBytes [] (List.replicate 33 65)).1.length = 32 ∧
      (Uart.processBytes [] (List.replicate 33 65)).2.1 =
        (List.replicate 33 65).take 32 ∧
      (Uart.processBytes [] (List.replicate 33 65)).2.2 =
        [(32, 32, (List.replicate 33 65).getD 32 0)]) :=
  ⟨by decide, by decide, c3_overflow (List.replicate 33 65) (by decide) (by decide)⟩

/-- Every glyph of the table is its brightness-1 shape with the nonzero
cells rescaled to the requested brightness; the all-`b` fallback also
has this form. -/
theorem ch_to_matrix_scale (c : Nat) (hc : c < 256) (b : Nat) :
    Uart.ch_to_matrix (some c) b = Uart.scaleShape b (Uart.ch_to_matrix (some c) 1) := by
  interval_cases c <;> rfl

/-- Auxiliary fact: mapping the rescale over an optional cell value
commutes with taking the default. -/
theorem getD_map_scale (b : Nat) (o : Option Nat) :
    (Option.map (fun x => if x = 0 then 0 else b) o).getD 0 =
      if o.getD 0 = 0 then 0 else b := by
  cases o <;> simp

/-- A cell of a rescaled frame is `b` where the original cell was
nonzero and 0 elsewhere. -/
theorem cell_scaleShape (b : Nat) (m : Uart.Image) (i j : Nat) :
    Uart.cell (Uart.scaleShape b m) i j =
      if Uart.cell m i j = 0 then 0 else b := by
  unfold Uart.cell Uart.scaleShape
  rw [List.getElem?_map]
  cases hrow : m[i]? with
  | none => simp
  | some row =>
    simp only [Option.map_some', Option.getD_some, List.getElem?_map]
    exact getD_map_scale b row[j]?

/-- Every in-range cell of the all-ones frame is 1. -/
theorem cell_allOnes (i j : Nat) (hi : i < 5) (hj : j < 5) :
    Uart.cell
      [ [1, 1, 1, 1, 1], [1, 1, 1, 1, 1], [1, 1, 1, 1, 1],
        [1, 1, 1, 1, 1], [1, 1, 1, 1, 1] ] i j = 1 := by
  interval_cases i <;> interval_cases j <;> rfl

/-- A byte outside the glyph table's arms falls through to the all-on
shape: every in-range cell of its brightness-1 frame is 1. -/
theorem ch_to_matrix_unsupported_shape (c : Nat) (hc : c < 256)
    (hn : ¬ Uart.supportedChar c) (i j : Nat) (hi : i < 5) (hj : j < 5) :
    Uart.cell (Uart.ch_to_matrix (some c) 1) i j = 1 := by
  interval_cases c <;>
    first
      | exact absurd (by decide) hn
      | exact cell_allOnes i j hi hj

/-- Claim C7 (as stated, refuted): the brightness scalar does change
which cells are nonzero, because brightness 0 blanks the glyph.  For
the supported character 'A' (byte 65), cell (0, 1) is nonzero at
brightness 5 but zero at brightness 0. -/
theorem c7_counterexample :
    Uart.cell (Uart.ch_to_matrix (some 65) 5) 0 1 ≠ 0 ∧
    Uart.cell (Uart.ch_to_matrix (some 65) 0) 0 1 = 0 := by
  decide

/-- Claim C7 (amended): the glyph lookup is a pure deterministic
function; for every supported character and every brightness `b`,
every cell of the returned frame is either 0 or `b` (so every nonzero
cell equals `b`); and as long as both brightness values are nonzero,
changing the brightness changes only the magnitude of the nonzero
cells, never which cells are nonzero. -/
theorem c7_glyph_pure (c : Nat) (hc : c < 256) (hs : Uart.supportedChar c)
    (b b2 i j : Nat) :
    Uart.ch_to_matrix (some c) b = Uart.ch_to_matrix (some c) b ∧
    (Uart.cell (Uart.ch_to_matrix (some c) b) i j = 0 ∨
      Uart.cell (Uart.ch_to_matrix (some c) b) i j = b) ∧
    (b ≠ 0 → b2 ≠ 0 →
      (Uart.cell (Uart.ch_to_matrix (some c) b) i j ≠ 0 ↔
        Uart.cell (Uart.ch_to_matrix (some c) b2) i j ≠ 0)) := by
  refine ⟨rfl, ?_, ?_⟩
  · rw [ch_to_matrix_scale c hc b, cell_scaleShape]
    split_ifs <;> simp
  · intro hb hb2
    rw [ch_to_matrix_scale c hc b, cell_scaleShape,
        ch_to_matrix_scale c hc b2, cell_scaleShape]
    split_ifs <;> simp [hb, hb2]

/-- Concrete instance of C7 at 'A' with brightness 5 and 7, cell
(0, 1). -/
theorem c7_witness :
    (65 : Nat) < 256 ∧ Uart.supportedChar 65 ∧
    (Uart.ch_to_matrix (some 65) 5 = Uart.ch_to_matrix (some 65) 5 ∧
      (Uart.cell (Uart.ch_to_matrix (some 65) 5) 0 1 = 0 ∨
        Uart.cell (Uart.ch_to_matrix (some 65) 5) 0 1 = 5) ∧
      ((5 : Nat) ≠ 0 → (7 : Nat) ≠ 0 →
        (Uart.cell (Uart.ch_to_matrix (some 65) 5) 0 1 ≠ 0 ↔
          Uart.cell (Uart.ch_to_matrix (some 65) 7) 0 1 ≠ 0))) :=
  ⟨by decide, by decide, c7_glyph_pure 65 (by decide) (by decide) 5 7 0 1⟩

/-- Claim C8 (as stated, refuted): the fallback frame for an
unsupported character is drawn at the requested brightness, not at the
maximum 9 — for byte 33 at brightness 5, cell (0, 0) is 5, not 9. -/
theorem c8_counterexample : Uart.cell (Uart.ch_to_matrix (some 33) 5) 0 0 ≠ 9 := by
  decide

/-- Claim C8 (amended): for every unsupported byte (not A-Z, a-z, 0-9,
Enter, Backspace, Space or Escape) and every brightness scalar `b`,
the glyph lookup returns the all-on frame with every cell equal to the
requested brightness `b`. -/
theorem c8_unsupported (c : Nat) (hc : c < 256) (hn : ¬ Uart.supportedChar c)
    (b i j : Nat) (hi : i < 5) (hj : j < 5) :
    Uart.cell (Uart.ch_to_matrix (some c) b) i j = b := by
  rw [ch_to_matrix_scale c hc b, cell_scaleShape,
      ch_to_matrix_unsupported_shape c hc hn i j hi hj]
  simp

/-- Concrete instance of C8 at byte 33 ('!'), brightness 5, cell
(0, 0). -/
theorem c8_witness :
    (33 : Nat) < 256 ∧ ¬ Uart.supportedChar 33 ∧
    Uart.cell (Uart.ch_to_matrix (some 33) 5) 0 0 = 5 :=
  ⟨by decide, by decide, c8_unsupported 33 (by decide) (by decide) 5 0 0 (by decide) (by decide)⟩

/-- The brightness map is monotone in the step wherever it is defined. -/
theorem brightness_mono (u v bu bv : Nat) (huv : u ≤ v)
    (hu : Uart.brightness u = some bu) (hv : Uart.brightness v = some bv) :
    bu ≤ bv := by
  unfold Uart.brightness Uart.MAX_STEP at hu hv
  split_ifs at hu hv <;> simp_all <;> omega

/-- The `unreachable!()` brightness arm is never taken for steps up to
`MAX_STEP`. -/
theorem brightness_isSome (st : Nat) (h : st ≤ Uart.MAX_STEP) :
    (Uart.brightness st).isSome := by
  unfold Uart.brightness
  split_ifs <;> simp_all

/-- A tick with an empty mailbox and a step strictly between `MIN_STEP`
and `MAX_STEP` clears no mailbox, keeps the remembered character and
just decrements the step. -/
theorem tick_no_input (st : Nat) (ch : Option Nat)
    (h3 : Uart.MIN_STEP < st) (h24 : st ≤ Uart.MAX_STEP) :
    (Uart.tick ⟨none, st, ch⟩).1 = ⟨none, st - 1, ch⟩ := by
  have hnr : ¬ st ≤ Uart.MIN_STEP := by omega
  rcases le_or_lt st 8 with h8 | h8
  · have hbr : Uart.brightness st = some (9 - (9 - st)) := by
      simp [Uart.brightness, h8]
    cases ch <;>
      simp [Uart.tick, Uart.drain, Uart.resetPhase, hnr, hbr, Uart.glyphSelect]
  · have hbr : Uart.brightness st = some 9 := by
      simp [Uart.brightness, show ¬ st ≤ 8 by omega, h24]
    cases ch <;>
      simp [Uart.tick, Uart.drain, Uart.resetPhase, hnr, hbr, Uart.glyphSelect]

/-- A tick that takes a byte from the mailbox always ends with the
step at 23: the drain resets the step to `MAX_STEP` and the final
decrement lowers it by one. -/
theorem tick_input (b st : Nat) (ch : Option Nat) :
    (Uart.tick ⟨some b, st, ch⟩).1 =
      ⟨none, 23, if some b = ch then ch else some b⟩ := by
  by_cases h : some b = ch <;>
    simp [Uart.tick, Uart.drain, Uart.resetPhase, Uart.brightness,
      Uart.glyphSelect, Uart.MAX_STEP, Uart.MIN_STEP, h]

/-- A tick with an empty mailbox whose step has decayed to `MIN_STEP`
or below resets: the character is forgotten and the step becomes
`MAX_STEP - 1` after the final decrement. -/
theorem tick_reset (st : Nat) (ch : Option Nat) (h : st ≤ Uart.MIN_STEP) :
    (Uart.tick ⟨none, st, ch⟩).1 = ⟨none, 23, none⟩ := by
  have h3 : st ≤ 3 := h
  simp [Uart.tick, Uart.drain, Uart.resetPhase, h3, Uart.brightness,
    Uart.glyphSelect, Uart.MAX_STEP, Uart.MIN_STEP]

/-- With no input and no reset pending, the brightness a tick uses is
the brightness of its starting step. -/
theorem usedBrightness_no_input (st : Nat) (ch : Option Nat)
    (h3 : Uart.MIN_STEP < st) :
    Uart.usedBrightness ⟨none, st, ch⟩ = Uart.brightness st := by
  simp [Uart.usedBrightness, Uart.usedStep, Uart.drain, Uart.resetPhase,
    show ¬ st ≤ Uart.MIN_STEP by omega]

/-- Claim C2: whenever the byte taken from the mailbox equals the
currently remembered character, that tick publishes the blank frame,
the glyph-selection step leaves the remembered character (and, by
construction, the step counter, which it does not touch) unchanged,
and the immediately following tick renders that character again at
full brightness 9 (the drain reset the step to `MAX_STEP`, so the next
tick sees step 23 and full brightness). -/
theorem c2_repeat_blank (s : Uart.AnimState) (b : Nat)
    (hm : s.mailbox = some b) (hc : s.ch = some b) :
    (Uart.tick s).2 = some Uart.BLANK_MATRIX ∧
    (Uart.tick s).1.ch = some b ∧
    (∀ br, Uart.glyphSelect (some b) (some b) br = (Uart.BLANK_MATRIX, some b)) ∧
    (Uart.tick (Uart.tick s).1).2 = some (Uart.ch_to_matrix (some b) 9) := by
  obtain ⟨mb, st, ch⟩ := s
  simp only at hm hc
  subst hm; subst hc
  refine ⟨?_, ?_, ?_, ?_⟩ <;>
    simp [Uart.tick, Uart.drain, Uart.resetPhase, Uart.brightness,
      Uart.glyphSelect, Uart.MAX_STEP, Uart.MIN_STEP]

/-- Concrete instance of C2 at character 'A' (byte 65), step 10. -/
theorem c2_witness :
    (Uart.AnimState.mk (some 65) 10 (some 65)).mailbox = some 65 ∧
    (Uart.AnimState.mk (some 65) 10 (some 65)).ch = some 65 ∧
    ((Uart.tick ⟨some 65, 10, some 65⟩).2 = some Uart.BLANK_MATRIX ∧
      (Uart.tick ⟨some 65, 10, some 65⟩).1.ch = some 65 ∧
      (∀ br, Uart.glyphSelect (some 65) (some 65) br =
        (Uart.BLANK_MATRIX, some 65)) ∧
      (Uart.tick (Uart.tick ⟨some 65, 10, some 65⟩).1).2 =
        some (Uart.ch_to_matrix (some 65) 9)) :=
  ⟨rfl, rfl, c2_repeat_blank ⟨some 65, 10, some 65⟩ 65 rfl rfl⟩

/-- Claim C5: the computed brightness equals the step for steps 0 to 8
and is 9 for steps 9 to `MAX_STEP`; every computed brightness is at
most 9; and across two consecutive no-input ticks that both stay above
the reset threshold, the brightness is non-increasing. -/
theorem c5_brightness_ramp :
    (∀ st, st ≤ 8 → Uart.brightness st = some st) ∧
    (∀ st, 9 ≤ st → st ≤ Uart.MAX_STEP → Uart.brightness st = some 9) ∧
    (∀ st b, Uart.brightness st = some b → b ≤ 9) ∧
    (∀ s : Uart.AnimState, s.mailbox = none → Uart.MIN_STEP < s.step - 1 →
      s.step ≤ Uart.MAX_STEP →
      (Uart.tick s).1.step = s.step - 1 ∧ (Uart.tick s).1.mailbox = none ∧
      (∀ b b2, Uart.usedBrightness s = some b →
        Uart.usedBrightness (Uart.tick s).1 = some b2 → b2 ≤ b)) := by
  refine ⟨?_, ?_, ?_, ?_⟩
  · intro st h
    simp [Uart.brightness, h]
    omega
  · intro st h9 h24
    simp [Uart.brightness, show ¬ st ≤ 8 by omega, h24]
  · intro st b h
    unfold Uart.brightness at h
    split_ifs at h <;> simp_all <;> omega
  · intro s hm h3 h24
    obtain ⟨mb, st, ch⟩ := s
    simp only at hm h3 h24
    subst hm
    have h5 : Uart.MIN_STEP < st := by
      unfold Uart.MIN_STEP at h3 ⊢; omega
    have ht := tick_no_input st ch h5 h24
    rw [ht]
    refine ⟨rfl, rfl, ?_⟩
    intro b b2 hb hb2
    rw [usedBrightness_no_input st ch h5] at hb
    rw [usedBrightness_no_input (st - 1) ch h3] at hb2
    exact brightness_mono (st - 1) st b2 b (Nat.sub_le st 1) hb2 hb

/-- Concrete instance of C5: brightness 5 at step 5, brightness 9 at
step 20, and a non-increasing pair of brightness values across the
no-input tick from step 10. -/
theorem c5_witness :
    (5 : Nat) ≤ 8 ∧ Uart.brightness 5 = some 5 ∧
    (9 : Nat) ≤ 20 ∧ (20 : Nat) ≤ Uart.MAX_STEP ∧ Uart.brightness 20 = some 9 ∧
    (Uart.AnimState.mk none 10 (some 65)).mailbox = none ∧
    Uart.MIN_STEP < (Uart.AnimState.mk none 10 (some 65)).step - 1 ∧
    (Uart.AnimState.mk none 10 (some 65)).step ≤ Uart.MAX_STEP ∧
    ((Uart.tick ⟨none, 10, some 65⟩).1.step = 9 ∧
      (Uart.tick ⟨none, 10, some 65⟩).1.mailbox = none ∧
      (∀ b b2, Uart.usedBrightness ⟨none, 10, some 65⟩ = some b →
        Uart.usedBrightness (Uart.tick ⟨none, 10, some 65⟩).1 = some b2 →
        b2 ≤ b)) :=
  ⟨by decide, c5_brightness_ramp.1 5 (by decide),
   by decide, by decide, c5_brightness_ramp.2.1 20 (by decide) (by decide),
   rfl, by decide, by decide,
   c5_brightness_ramp.2.2.2 ⟨none, 10, some 65⟩ rfl (by decide) (by decide)⟩

/-- Claim C9: the step invariant `MIN_STEP ≤ STEP ≤ MAX_STEP` holds
initially and is preserved by every tick; under it the step actually
fed to the brightness match and then decremented is strictly above
`MIN_STEP` (in particular at least 1, so the `STEP -= 1` never
underflows) and at most `MAX_STEP` (so the brightness match's
`unreachable!()` arm for larger steps is never taken). -/
theorem c9_step_invariant :
    Uart.AnimInv Uart.animInit ∧
    (∀ s : Uart.AnimState, Uart.AnimInv s →
      Uart.MIN_STEP < Uart.usedStep s ∧ Uart.usedStep s ≤ Uart.MAX_STEP ∧
      1 ≤ Uart.usedStep s ∧
      (Uart.brightness (Uart.usedStep s)).isSome ∧
      (Uart.tick s).1.step = Uart.usedStep s - 1 ∧
      Uart.AnimInv (Uart.tick s).1) := by
  refine ⟨by decide, ?_⟩
  intro s hs
  obtain ⟨mb, st, ch⟩ := s
  obtain ⟨hlo, hhi⟩ := hs
  simp only at hlo hhi
  cases mb with
  | some b =>
    have husd : Uart.usedStep ⟨some b, st, ch⟩ = 24 := by
      simp [Uart.usedStep, Uart.drain, Uart.resetPhase, Uart.MAX_STEP, Uart.MIN_STEP]
    rw [husd, tick_input]
    exact ⟨by decide, by decide, by decide, by decide, rfl,
      show Uart.MIN_STEP ≤ 23 by decide, show (23 : Nat) ≤ Uart.MAX_STEP by decide⟩
  | none =>
    by_cases hst : st ≤ Uart.MIN_STEP
    · have husd : Uart.usedStep ⟨none, st, ch⟩ = 24 := by
        simp [Uart.usedStep, Uart.drain, Uart.resetPhase, hst, Uart.MAX_STEP]
      rw [husd, tick_reset st ch hst]
      exact ⟨by decide, by decide, by decide, by decide, rfl,
        show Uart.MIN_STEP ≤ 23 by decide, show (23 : Nat) ≤ Uart.MAX_STEP by decide⟩
    · have hst4 : 3 < st := by unfold Uart.MIN_STEP at hst; omega
      have hst24 : st ≤ 24 := hhi
      have husd : Uart.usedStep ⟨none, st, ch⟩ = st := by
        simp [Uart.usedStep, Uart.drain, Uart.resetPhase, hst]
      rw [husd, tick_no_input st ch (show Uart.MIN_STEP < st from hst4) hhi]
      refine ⟨hst4, hhi, by omega, brightness_isSome st hhi, rfl, ?_, ?_⟩
      · show Uart.MIN_STEP ≤ st - 1
        unfold Uart.MIN_STEP
        omega
      · show st - 1 ≤ Uart.MAX_STEP
        unfold Uart.MAX_STEP
        omega

/-- Concrete instance of C9 at the state with empty mailbox, step 10
and remembered character 'A'. -/
theorem c9_witness :
    Uart.AnimInv ⟨none, 10, some 65⟩ ∧
    (Uart.MIN_STEP < Uart.usedStep ⟨none, 10, some 65⟩ ∧
      Uart.usedStep ⟨none, 10, some 65⟩ ≤ Uart.MAX_STEP ∧
      1 ≤ Uart.usedStep ⟨none, 10, some 65⟩ ∧
      (Uart.brightness (Uart.usedStep ⟨none, 10, some 65⟩)).isSome ∧
      (Uart.tick ⟨none, 10, some 65⟩).1.step =
        Uart.usedStep ⟨none, 10, some 65⟩ - 1 ∧
      Uart.AnimInv (Uart.tick ⟨none, 10, some 65⟩).1) :=
  ⟨by decide, c9_step_invariant.2 ⟨none, 10, some 65⟩ (by decide)⟩
